import Mathlib

/-!
# Verification of the bhsai-demo chat/quiz client

Shallow embedding of the core client logic of the `bhsai-demo` repository:
the chat session manager and streaming coordinator (`src/App.tsx`), the
legacy session manager variant (`src/unnamed/part_000`), the IndexedDB
persistence and migration layer (`src/unnamed/part_002`), and the quiz
request handler (`src/api/quiz.ts`).

State held in React `useState` hooks is modelled as explicit record fields;
an event handler becomes a function from the captured (render-time) state
and the network response to the resulting state.  JavaScript arrays become
`List`, `null`/`undefined` become `Option`, and JS truthiness of the values
that actually flow through the code (numbers, strings, nullable objects) is
modelled explicitly where the source branches on it.
-/

namespace BhsAI

/-- Type `GroundingChunk` from `src/types.ts`: `{ web: { uri, title } }` (flattened). -/
structure GroundingChunk where
  uri : String
  title : String
deriving DecidableEq, Repr

/-- Message roles: `'user' | 'model'` from `src/types.ts`. -/
inductive Role
  | user
  | model
deriving DecidableEq, Repr

/-- Type `ChatMessage` from `src/types.ts`. -/
structure ChatMessage where
  role : Role
  text : String
  image : Option String := none
  sources : Option (List GroundingChunk) := none
deriving DecidableEq, Repr

/-- Type `StoredChat` from `src/types.ts` (= `Chat` plus storage fields). -/
structure StoredChat where
  id : String
  classNum : Int
  title : String
  messages : List ChatMessage
  createdAt : Int
  isPinned : Option Bool := none
deriving DecidableEq, Repr

/-- Type `QuizQuestion` from `src/types.ts`. -/
structure QuizQuestion where
  question : String
  options : List String
  correctAnswerIndex : Int
  explanation : String
deriving DecidableEq, Repr

/-- The `quizStage` state: `'question' | 'results'` (`src/App.tsx`). -/
inductive QuizStage
  | question
  | results
deriving DecidableEq, Repr

/-!
## Message-list mutation

`src/App.tsx` `updateLastMessage` writes `newMessages[newMessages.length - 1]
= newMessage`: it overwrites the last slot unconditionally.  (On an empty
array the JS assignment to index `-1` creates a stray non-index property that
is invisible to `length` and iteration, so the visible message list stays
empty; `List.set` on an out-of-range index likewise returns the list
unchanged.)
-/

/-- The message-list effect of `updateLastMessage` in `src/App.tsx`
(lines 849–850): `newMessages[newMessages.length - 1] = newMessage`. -/
def replaceLast (msgs : List ChatMessage) (m : ChatMessage) : List ChatMessage :=
  msgs.set (msgs.length - 1) m

/-- Function `updateLastMessage` from the legacy variant `src/unnamed/part_000`
(lines 192–209): replace the last message when it has role `model`,
otherwise push. -/
def updateLastMessageLegacy (msgs : List ChatMessage) (m : ChatMessage) :
    List ChatMessage :=
  match msgs.getLast? with
  | some lastMsg =>
      if lastMsg.role = Role.model then msgs.dropLast ++ [m] else msgs ++ [m]
  | none => msgs ++ [m]

/-- Function `updateLastMessage` from `src/App.tsx` (lines 842–859) at the session
level.  `activeChatId` is the value captured by the closure at the render
that issued the request; `prevChats` is the chat list current when the
update lands (the functional `setChatsForClass` form).  Returns the new
chat list and whether a durable `updateChat` write was issued. -/
def updateLastMessageApp (activeChatId : Option String)
    (prevChats : List StoredChat) (newMessage : ChatMessage)
    (saveToDb : Bool := true) : List StoredChat × Bool :=
  match activeChatId with
  | none => (prevChats, false)
  | some aid =>
      if aid = "" then (prevChats, false)
      else
      match prevChats.find? (fun c => c.id = aid) with
      | none => (prevChats, false)
      | some chatToUpdate =>
          let updatedChat :=
            { chatToUpdate with messages := replaceLast chatToUpdate.messages newMessage }
          (prevChats.map (fun c => if c.id = aid then updatedChat else c), saveToDb)

/-!
## Application state

The `useState` hooks of the `App` component (`src/App.tsx`, lines 544–576)
that the verified logic touches, plus the durable IndexedDB contents (`db`)
and a count of chat/quiz HTTP requests issued (`requestsSent`).
`titleRequestedFor` records the conversation id passed to
`generateTitleForChat` when the title trigger in `handleSendMessage` fires.
-/

structure AppState where
  selectedClass : Option Int
  chatsForClass : List StoredChat
  activeChatId : Option String
  input : String
  image : Option String
  isLoading : Bool
  isGoogleSearchEnabled : Bool
  db : List StoredChat
  requestsSent : Nat
  titleRequestedFor : Option String
  showQuizModal : Bool
  quizTopic : String
  quizTopicForDisplay : String
  quizQuestions : List QuizQuestion
  currentQuestionIndex : Nat
  userAnswers : List (Option Int)
  selectedAnswer : Option Int
  isQuizModeActive : Bool
  quizStage : QuizStage
  quizScore : Nat
deriving DecidableEq, Repr

/-- JS truthiness of the nullable numeric `selectedClass` (`null` and `0`
are falsy). -/
def truthyClass : Option Int → Bool
  | none => false
  | some n => n != 0

/-- JS truthiness of the nullable string `activeChatId` (`null` and `""`
are falsy). -/
def truthyStr : Option String → Bool
  | none => false
  | some s => s != ""

/-- JS `String.prototype.trim`: strip leading and trailing whitespace.
Modelled structurally over the character list so that it evaluates by
kernel reduction. -/
def jsTrim (s : String) : String :=
  ⟨((s.data.dropWhile Char.isWhitespace).reverse.dropWhile
      Char.isWhitespace).reverse⟩

/-- IndexedDB `put` (`updateChat` in `src/unnamed/part_002`): overwrite by
key when present, insert otherwise. -/
def dbPut (db : List StoredChat) (chat : StoredChat) : List StoredChat :=
  if db.any (fun c => c.id == chat.id) then
    db.map (fun c => if c.id = chat.id then chat else c)
  else
    db ++ [chat]

/-- The state effect of one `updateLastMessage` call in `src/App.tsx`
(lines 842–859), including the conditional `updateChat` persistence write.
`capturedAid` is the `activeChatId` value captured by the calling closure. -/
def applyUpdateLastMessage (st : AppState) (capturedAid : Option String)
    (m : ChatMessage) (saveToDb : Bool) : AppState :=
  match capturedAid with
  | none => st
  | some aid =>
      if aid = "" then st
      else
      match st.chatsForClass.find? (fun c => c.id = aid) with
      | none => st
      | some chatToUpdate =>
          let updatedChat :=
            { chatToUpdate with messages := replaceLast chatToUpdate.messages m }
          { st with
              chatsForClass :=
                st.chatsForClass.map (fun c : StoredChat => if c.id = aid then updatedChat else c),
              db := if saveToDb then dbPut st.db updatedChat else st.db }

/-- The state effect of `addNewMessage` in `src/App.tsx` (lines 861–869):
append a message to the active conversation and persist. -/
def addNewMessage (st : AppState) (m : ChatMessage) : AppState :=
  match st.activeChatId with
  | none => st
  | some aid =>
      if aid = "" then st
      else
      match st.chatsForClass.find? (fun c => c.id = aid) with
      | none => st
      | some chatToUpdate =>
          let updatedChat :=
            { chatToUpdate with messages := chatToUpdate.messages ++ [m] }
          { st with
              chatsForClass :=
                st.chatsForClass.map (fun c : StoredChat => if c.id = aid then updatedChat else c),
              db := dbPut st.db updatedChat }

/-!
## Streaming response coordinator (`handleSendMessage`)
-/

/-- Outcome of the `fetch("/api/chat")` call as observed by the client.
`httpError e` models `!response.ok` (and any other thrown failure) with
parsed error message `e`; `ok text sources body` models a success response
from which the grounded branch reads the JSON fields `text` and
`candidates[0].groundingMetadata.groundingChunks`, while the streaming
branch reads `response.body` (`none` = null body, `some chunks` = the
decoded UTF-8 chunks in receipt order). -/
inductive ChatApiResponse
  | httpError (errMsg : String)
  | ok (text : String) (sources : Option (List GroundingChunk))
      (body : Option (List String))
deriving DecidableEq, Repr

/-- The streaming loop of `handleSendMessage` (lines 818–823): after every
chunk, concatenate into `fullResponse` and call `updateLastMessage` with
`saveToDb = false`.  Returns the state after all chunk updates together
with the accumulated `fullResponse`. -/
def applyStream (aid : Option String) (st : AppState) (acc : String) :
    List String → AppState × String
  | [] => (st, acc)
  | c :: rest =>
      let acc2 := acc ++ c
      applyStream aid
        (applyUpdateLastMessage st aid { role := Role.model, text := acc2 } false)
        acc2 rest

/-- The response-handling body of the `try`/`catch` in `handleSendMessage`
(`src/App.tsx`, lines 802–829): grounded-mode single application, streaming
loop plus final persisted replace, or the catch-branch error replacement. -/
def applyChatResponse (st2 : AppState) (aid : String) (useGoogleSearch : Bool)
    (resp : ChatApiResponse) : AppState :=
  match resp with
  | ChatApiResponse.httpError e =>
      applyUpdateLastMessage st2 (some aid)
        { role := Role.model, text := "Sorry, something went wrong. " ++ e } true
  | ChatApiResponse.ok text sources body =>
      if useGoogleSearch then
        applyUpdateLastMessage st2 (some aid)
          { role := Role.model, text := text, sources := sources } true
      else
        match body with
        | none =>
            applyUpdateLastMessage st2 (some aid)
              { role := Role.model,
                text := "Sorry, something went wrong. Response body is empty." } true
        | some chunks =>
            let stFull := applyStream (some aid) st2 "" chunks
            applyUpdateLastMessage stFull.1 (some aid)
              { role := Role.model, text := stFull.2 } true

/-- Function `handleSendMessage` from `src/App.tsx` (lines 762–840), from the guard
through the `finally` block.  All reads of `chatsForClass`, `activeChatId`,
`selectedClass`, `image`, `isGoogleSearchEnabled` outside functional
`setState` updaters use the values captured at call time (`st`), exactly as
the JS closure does; in particular the title-trigger check in `finally`
re-reads the captured `chatsForClass`, not the updated list. -/
def handleSendMessage (st : AppState) (messageText : String)
    (resp : ChatApiResponse) : AppState :=
  match st.activeChatId with
  | none => st
  | some aid =>
      if (jsTrim messageText = "" ∧ st.image = none) ∨ st.isLoading = true ∨
          truthyClass st.selectedClass = false ∨ aid = "" then st
      else
        match st.chatsForClass.find? (fun c => c.id = aid) with
        | none => st
        | some currentChat =>
            let userMessage : ChatMessage :=
              { role := Role.user, text := messageText, image := st.image }
            let updatedMessages :=
              currentChat.messages ++ [userMessage, { role := Role.model, text := "" }]
            let updatedChat := { currentChat with messages := updatedMessages }
            let st1 :=
              { st with
                  chatsForClass :=
                    st.chatsForClass.map (fun c : StoredChat => if c.id = aid then updatedChat else c),
                  db := dbPut st.db updatedChat,
                  isLoading := true, input := "", image := none }
            let useGoogleSearch := st.isGoogleSearchEnabled && st.image.isNone
            let st2 := { st1 with requestsSent := st1.requestsSent + 1 }
            let st3 := applyChatResponse st2 aid useGoogleSearch resp
            let st4 := { st3 with isLoading := false }
            let staleLen2 : Bool :=
              match st.chatsForClass.find? (fun c => c.id = aid) with
              | some finalChatState => finalChatState.messages.length == 2
              | none => false
            let titleTrigger : Bool :=
              (currentChat.messages.length == 0) && truthyClass st.selectedClass && staleLen2
            if titleTrigger then { st4 with titleRequestedFor := some aid } else st4

/-!
## Quiz engine (`handleStartQuiz`, `handleAnswerSelect`)
-/

/-- Outcome of the `fetch("/api/quiz")` call: `httpError e` models
`!response.ok` (and any thrown failure) with message `e`; `ok quiz` models
a success response whose parsed JSON has `quiz` field `quiz` (`none` =
field missing). -/
inductive QuizApiResponse
  | httpError (errMsg : String)
  | ok (quiz : Option (List QuizQuestion))
deriving DecidableEq, Repr

/-- Function `handleStartQuiz` from `src/App.tsx` (lines 980–1027). -/
def handleStartQuiz (st : AppState) (resp : QuizApiResponse) : AppState :=
  if jsTrim st.quizTopic = "" ∨ truthyClass st.selectedClass = false then st
  else
    let st0 := { st with quizTopicForDisplay := st.quizTopic, isLoading := true,
                         showQuizModal := false }
    let st1 := addNewMessage st0
      { role := Role.user, text := "Start a quiz on: " ++ st.quizTopic }
    let st2 := addNewMessage st1 { role := Role.model, text := "" }
    let st3 := { st2 with requestsSent := st2.requestsSent + 1 }
    let st4 :=
      match resp with
      | QuizApiResponse.httpError e =>
          applyUpdateLastMessage st3 st.activeChatId
            { role := Role.model,
              text := "Sorry, I couldn\x27t create a quiz for that topic. " ++ e } true
      | QuizApiResponse.ok quizOpt =>
          match quizOpt with
          | none =>
              applyUpdateLastMessage st3 st.activeChatId
                { role := Role.model,
                  text := "Sorry, I couldn\x27t create a quiz for that topic. The AI could not generate a quiz for this topic." } true
          | some qz =>
              if qz.length = 0 then
                applyUpdateLastMessage st3 st.activeChatId
                  { role := Role.model,
                    text := "Sorry, I couldn\x27t create a quiz for that topic. The AI could not generate a quiz for this topic." } true
              else
                let stAck := applyUpdateLastMessage st3 st.activeChatId
                  { role := Role.model,
                    text := "Great! Let\x27s test your knowledge. Starting the quiz now..." } true
                { stAck with
                    quizQuestions := qz,
                    userAnswers := List.replicate qz.length none,
                    currentQuestionIndex := 0,
                    selectedAnswer := none,
                    quizStage := QuizStage.question,
                    isQuizModeActive := true }
    { st4 with quizTopic := "", isLoading := false }

/-- Function `handleAnswerSelect` from `src/App.tsx` (lines 1029–1051), including
the state transition performed inside the 2.5 s `setTimeout` callback. -/
def handleAnswerSelect (st : AppState) (selectedIndex : Int) : AppState :=
  let newAnswers := st.userAnswers.set st.currentQuestionIndex (some selectedIndex)
  let st1 := { st with selectedAnswer := some selectedIndex, userAnswers := newAnswers }
  if (st.currentQuestionIndex : Int) < (st.quizQuestions.length : Int) - 1 then
    { st1 with currentQuestionIndex := st.currentQuestionIndex + 1, selectedAnswer := none }
  else
    let score := st.quizQuestions.enum.countP
      (fun iq => newAnswers.getD iq.1 none == some iq.2.correctAnswerIndex)
    let scoreMessage :=
      "## Quiz Complete!\n\n**Topic: " ++ st.quizTopicForDisplay ++
        "**\n**Final score: " ++ toString score ++ " out of " ++
        toString st.quizQuestions.length ++ "**"
    let st2 := { st1 with quizScore := score, quizStage := QuizStage.results }
    addNewMessage st2 { role := Role.model, text := scoreMessage }

/-!
## Conversation lifecycle (`handleNewChat`, `handleSelectChat`, `handleDeleteChat`)
-/

/-- Function `handleSelectChat` from `src/App.tsx` (lines 886–892). -/
def handleSelectChat (st : AppState) (chatId : String) : AppState :=
  if truthyClass st.selectedClass = false then st
  else
    { st with isQuizModeActive := false, quizQuestions := [],
              activeChatId := some chatId }

/-- Function `handleNewChat` from `src/App.tsx` (lines 871–884).  `newId` and `now`
stand for `Date.now().toString()` and the `createdAt` stamp assigned by
`addChat`. -/
def handleNewChat (st : AppState) (newId : String) (now : Int)
    (classNum : Option Int := none) : AppState :=
  let targetClass :=
    match classNum with
    | some n => if n != 0 then some n else st.selectedClass
    | none => st.selectedClass
  match targetClass with
  | none => st
  | some tc =>
      if tc = 0 then st
      else
        let newChat : StoredChat :=
          { id := newId, classNum := tc, title := "", messages := [], createdAt := now }
        let st1 := { st with db := st.db ++ [newChat],
                             chatsForClass := newChat :: st.chatsForClass }
        handleSelectChat st1 newId

/-- Function `handleDeleteChat` from `src/App.tsx` (lines 894–908).  `newId` and
`now` parameterise the chat that `handleNewChat` would create when no
conversation remains. -/
def handleDeleteChat (st : AppState) (chatIdToDelete : String)
    (newId : String) (now : Int) : AppState :=
  if truthyClass st.selectedClass = false then st
  else
    let remainingChats := st.chatsForClass.filter (fun c => c.id ≠ chatIdToDelete)
    let st1 := { st with db := st.db.filter (fun c => c.id ≠ chatIdToDelete),
                         chatsForClass := remainingChats }
    if st.activeChatId = some chatIdToDelete then
      match remainingChats with
      | c :: _ => handleSelectChat st1 c.id
      | [] => handleNewChat st1 newId now
    else st1

/-!
## Quiz request handler (`src/api/quiz.ts`)
-/

/-- The POST body destructured by the `/api/quiz` handler.  The numeric
`numQuestions` field is modelled as an integer; its JS truthiness guard
(`!numQuestions`) fails exactly on `0` for integer values. -/
structure QuizRequestBody where
  topic : String
  systemInstruction : String
  numQuestions : Int
  difficulty : String
deriving DecidableEq, Repr

/-- What the `/api/quiz` handler decides to do with a POST request:
reject with HTTP 400, or proceed to generate a quiz with
`validNumQuestions` questions. -/
inductive QuizHandlerStep
  | badRequest (error : String)
  | generate (validNumQuestions : Int)
deriving DecidableEq, Repr

/-- The request-validation prefix of the `/api/quiz` handler
(`src/api/quiz.ts`, lines 14–19): reject when any destructured field is
falsy, otherwise coerce `numQuestions` to one of 5/10/15/20 (defaulting to
5) and generate that many questions. -/
def quizHandler (req : QuizRequestBody) : QuizHandlerStep :=
  if req.topic = "" ∨ req.systemInstruction = "" ∨ req.numQuestions = 0 ∨
      req.difficulty = "" then
    QuizHandlerStep.badRequest
      "Topic, systemInstruction, numQuestions, and difficulty are required."
  else
    QuizHandlerStep.generate
      (if req.numQuestions = 5 ∨ req.numQuestions = 10 ∨ req.numQuestions = 15 ∨
          req.numQuestions = 20 then req.numQuestions else 5)

/-!
## Persistence store (`src/unnamed/part_002`)
-/

/-- Function `getChatsForClass` from `src/unnamed/part_002` (lines 73–88): fetch the
records whose `classNum` matches via the `classNum_createdAt` index, then
sort descending by `createdAt` with the (stable) JS `sort`, modelled by the
stable `insertionSort`.  (The relative order of records sharing the same
`createdAt` is abstracted.) -/
def getChatsForClass (store : List StoredChat) (classNum : Int) : List StoredChat :=
  (store.filter (fun c => c.classNum = classNum)).insertionSort
    (fun a b => b.createdAt ≤ a.createdAt)

/-!
## Migration adapter (`migrateFromLocalStorage`, `src/unnamed/part_002`)
-/

/-- One legacy conversation value inside the `chatHistories` blob: either a
bare message array (the oldest format, detected by `Array.isArray`) or an
object with `title` and `messages`. -/
inductive LegacyChatData
  | plainMessages (messages : List ChatMessage)
  | withTitle (title : String) (messages : List ChatMessage)
deriving DecidableEq, Repr

/-- The state the migration touches: the parsed `localStorage`
`chatHistories` blob (`none` = key absent), whether the `activeChatIds`
key is present, and the IndexedDB chat store.  Blob class keys are modelled
as the integers `parseInt(classNumStr, 10)` produces on the numeric keys
the legacy writer stored. -/
structure MigrationEnv where
  chatHistories : Option (List (Int × List (String × LegacyChatData)))
  activeChatIds : Bool
  store : List StoredChat
deriving DecidableEq, Repr

/-- JS `parseInt(s, 10)`: parse the longest leading (optionally signed)
digit prefix; `none` models `NaN`. -/
def jsParseInt (s : String) : Option Int :=
  let digitsVal : List Char → Option Nat := fun l =>
    let ds := l.takeWhile Char.isDigit
    if ds.isEmpty then none
    else some (ds.foldl (fun acc c => acc * 10 + (c.toNat - 48)) 0)
  match s.data with
  | '-' :: rest => (digitsVal rest).map (fun n => -(n : Int))
  | l => (digitsVal l).map (fun n => (n : Int))

/-- Conversion of one legacy conversation (`src/unnamed/part_002`,
lines 117–129): `title` defaults to `""` for the bare-array format and
`createdAt` is `parseInt(chatId, 10) || Date.now()` (falsy `NaN`/`0`
replaced by `now`). -/
def convertLegacyChat (now : Int) (classNum : Int) (chatId : String)
    (d : LegacyChatData) : StoredChat :=
  { id := chatId
    classNum := classNum
    title := match d with | LegacyChatData.plainMessages _ => ""
                          | LegacyChatData.withTitle t _ => t
    messages := match d with | LegacyChatData.plainMessages ms => ms
                             | LegacyChatData.withTitle _ ms => ms
    createdAt := match jsParseInt chatId with
                 | some n => if n = 0 then now else n
                 | none => now }

/-- All records the migration write transaction adds, in iteration order. -/
def convertLegacyBlob (now : Int)
    (parsed : List (Int × List (String × LegacyChatData))) : List StoredChat :=
  parsed.flatMap (fun p => p.2.map (fun q => convertLegacyChat now p.1 q.1 q.2))

/-- Function `migrateFromLocalStorage` from `src/unnamed/part_002` (lines 90–148).
Returns the new environment and the number of records durably written.
If the blob is absent, nothing happens.  If the store already has records,
the blob is discarded without writing.  Otherwise a readwrite transaction
adds every converted record; `txOk` says whether that transaction
committed — IndexedDB transactions are atomic, so a failed transaction
writes nothing and (per the `onerror` branch) leaves the legacy keys
intact. -/
def migrateFromLocalStorage (now : Int) (txOk : Bool) (s : MigrationEnv) :
    MigrationEnv × Nat :=
  match s.chatHistories with
  | none => (s, 0)
  | some parsed =>
      if s.store.length > 0 then
        ({ s with chatHistories := none }, 0)
      else
        let converted := convertLegacyBlob now parsed
        if txOk then
          ({ chatHistories := none, activeChatIds := false,
             store := s.store ++ converted }, converted.length)
        else (s, 0)

end BhsAI


namespace BhsAI

/-!
## General lemmas about the embedded operations
-/

/-- On a non-empty list, writing index `length - 1` replaces the last
element. -/
theorem replaceLast_eq_dropLast_concat (msgs : List ChatMessage)
    (m : ChatMessage) (h : msgs ≠ []) :
    replaceLast msgs m = msgs.dropLast ++ [m] := by
  induction msgs with
  | nil => exact absurd rfl h
  | cons a t ih =>
    cases t with
    | nil => rfl
    | cons b t2 =>
      have ih2 := ih (by simp)
      simp only [replaceLast, List.length_cons, Nat.add_sub_cancel] at ih2 ⊢
      simpa [List.set] using ih2

/-- Running `find?` over an id-targeted `map` update returns the replacement,
provided the id occurs. -/
theorem find?_map_update (l : List StoredChat) (aid : String) (u : StoredChat)
    (hu : u.id = aid) (hex : (l.find? (fun c => c.id = aid)).isSome) :
    (l.map (fun c : StoredChat => if c.id = aid then u else c)).find?
      (fun c => c.id = aid) = some u := by
  induction l with
  | nil => simp at hex
  | cons a t ih =>
    by_cases hcase : a.id = aid
    · simp [List.find?_cons, hcase, hu]
    · have hex2 : (t.find? (fun c => c.id = aid)).isSome := by
        simpa [List.find?_cons, hcase] using hex
      simpa [List.find?_cons, hcase] using ih hex2

/-- Two successive id-targeted `map` updates collapse to the second. -/
theorem map_update_twice (l : List StoredChat) (aid : String) (u v : StoredChat)
    (hu : u.id = aid) :
    ((l.map (fun c : StoredChat => if c.id = aid then u else c)).map
        (fun c : StoredChat => if c.id = aid then v else c)) =
      l.map (fun c : StoredChat => if c.id = aid then v else c) := by
  rw [List.map_map]
  congr 1
  funext c
  by_cases hcase : c.id = aid <;> simp [Function.comp, hcase, hu]

end BhsAI

namespace BhsAI

/-!
## Sample data used by concrete witnesses and counterexamples
-/

/-- A fresh empty conversation of class 6. -/
def chatA : StoredChat :=
  { id := "1", classNum := 6, title := "", messages := [], createdAt := 1000 }

/-- A baseline application state: class 6 selected, one fresh conversation
loaded and active, nothing in flight. -/
def stBase : AppState :=
  { selectedClass := some 6, chatsForClass := [chatA], activeChatId := some "1",
    input := "", image := none, isLoading := false, isGoogleSearchEnabled := false,
    db := [chatA], requestsSent := 0, titleRequestedFor := none,
    showQuizModal := false, quizTopic := "", quizTopicForDisplay := "",
    quizQuestions := [], currentQuestionIndex := 0, userAnswers := [],
    selectedAnswer := none, isQuizModeActive := false,
    quizStage := QuizStage.question, quizScore := 0 }

/-!
## C1 — `updateLastMessage` replace/append behaviour
-/

/-- Claim C1 counterexample: in `src/App.tsx`, when the last message of the
active conversation has role `user`, `updateLastMessage` does NOT append
the new message — it overwrites the user message. -/
theorem C1_counterexample :
    (updateLastMessageApp (some "1")
        [{ chatA with messages := [{ role := Role.user, text := "hi" }] }]
        { role := Role.model, text := "x" } true).1 =
      [{ chatA with messages := [{ role := Role.model, text := "x" }] }] ∧
    (updateLastMessageApp (some "1")
        [{ chatA with messages := [{ role := Role.user, text := "hi" }] }]
        { role := Role.model, text := "x" } true).1 ≠
      [{ chatA with messages := [{ role := Role.user, text := "hi" },
                                 { role := Role.model, text := "x" }] }] := by
  decide

/-- Claim C1 (amended): in `src/App.tsx`, `updateLastMessage` overwrites
the last message of the targeted conversation in place regardless of its
role, leaving all earlier messages (and all other conversations) unchanged;
the conditional replace-if-model-otherwise-append behaviour is implemented
only by the legacy variant in `src/unnamed/part_000`. -/
theorem C1_amended (chats : List StoredChat) (aid : String) (c : StoredChat)
    (m : ChatMessage) (haid : aid ≠ "")
    (hfind : chats.find? (fun c2 => c2.id = aid) = some c)
    (hne : c.messages ≠ []) :
    updateLastMessageApp (some aid) chats m true =
      (chats.map (fun c2 : StoredChat =>
          if c2.id = aid then { c with messages := c.messages.dropLast ++ [m] }
          else c2), true) ∧
    (∀ (msgs : List ChatMessage) (m2 : ChatMessage),
      updateLastMessageLegacy msgs m2 =
        if msgs.getLast?.map ChatMessage.role = some Role.model
        then msgs.dropLast ++ [m2] else msgs ++ [m2]) := by
  constructor
  · simp only [updateLastMessageApp, haid, if_neg, hfind]
    rw [replaceLast_eq_dropLast_concat c.messages m hne]
    simp
  · intro msgs m2
    unfold updateLastMessageLegacy
    cases hl : msgs.getLast? with
    | none => simp
    | some lastMsg =>
      by_cases hrole : lastMsg.role = Role.model <;> simp [hrole]

/-- Witness for `C1_amended` at a concrete input. -/
theorem C1_amended_witness :
    updateLastMessageApp (some "1")
        [{ chatA with messages := [{ role := Role.user, text := "hi" },
                                   { role := Role.model, text := "" }] }]
        { role := Role.model, text := "done" } true =
      ([{ chatA with messages := [{ role := Role.user, text := "hi" },
                                  { role := Role.model, text := "done" }] }], true) := by
  have h := (C1_amended
    [{ chatA with messages := [{ role := Role.user, text := "hi" },
                               { role := Role.model, text := "" }] }]
    "1"
    { chatA with messages := [{ role := Role.user, text := "hi" },
                              { role := Role.model, text := "" }] }
    { role := Role.model, text := "done" }
    (by decide) (by decide) (by decide)).1
  simpa using h

end BhsAI

namespace BhsAI

/-!
## C9 — `/api/quiz` silently coerces an invalid `numQuestions` to 5
-/

/-- Claim C9: a POST body with a truthy `numQuestions` outside
`{5, 10, 15, 20}` is not rejected; the handler coerces the count to 5 and
proceeds to generate a 5-question quiz. -/
theorem C9_numQuestions_coerced_to_5 (req : QuizRequestBody)
    (ht : req.topic ≠ "") (hs : req.systemInstruction ≠ "")
    (hd : req.difficulty ≠ "") (hn : req.numQuestions ≠ 0)
    (hnot5 : req.numQuestions ≠ 5) (hnot10 : req.numQuestions ≠ 10)
    (hnot15 : req.numQuestions ≠ 15) (hnot20 : req.numQuestions ≠ 20) :
    quizHandler req = QuizHandlerStep.generate 5 := by
  simp [quizHandler, ht, hs, hd, hn, hnot5, hnot10, hnot15, hnot20]

/-- Witness for `C9_numQuestions_coerced_to_5`: `numQuestions = 7`. -/
theorem C9_numQuestions_coerced_to_5_witness :
    quizHandler { topic := "algebra", systemInstruction := "sys",
                  numQuestions := 7, difficulty := "Easy" } =
      QuizHandlerStep.generate 5 :=
  C9_numQuestions_coerced_to_5
    { topic := "algebra", systemInstruction := "sys",
      numQuestions := 7, difficulty := "Easy" }
    (by decide) (by decide) (by decide) (by decide)
    (by decide) (by decide) (by decide) (by decide)

/-!
## C10 — `handleSendMessage` guard makes it a no-op
-/

/-- Claim C10: when the message is blank with no image attached, or a
request is already in flight, or no class or active conversation is
selected, `handleSendMessage` leaves the entire session state unchanged —
in particular no message is appended, the durable store (`db`) is not
written, and no request is issued (`requestsSent` unchanged). -/
theorem C10_guard_noop (st : AppState) (messageText : String)
    (resp : ChatApiResponse)
    (h : (jsTrim messageText = "" ∧ st.image = none) ∨ st.isLoading = true ∨
         truthyClass st.selectedClass = false ∨ truthyStr st.activeChatId = false) :
    handleSendMessage st messageText resp = st := by
  unfold handleSendMessage
  cases haid : st.activeChatId with
  | none => rfl
  | some aid =>
    have hcond : (jsTrim messageText = "" ∧ st.image = none) ∨ st.isLoading = true ∨
        truthyClass st.selectedClass = false ∨ aid = "" := by
      rcases h with h | h | h | h
      · exact Or.inl h
      · exact Or.inr (Or.inl h)
      · exact Or.inr (Or.inr (Or.inl h))
      · refine Or.inr (Or.inr (Or.inr ?_))
        rw [haid] at h
        simpa [truthyStr] using h
    simp [hcond]

/-- Witness for `C10_guard_noop`: a request already in flight. -/
theorem C10_guard_noop_witness :
    handleSendMessage { stBase with isLoading := true } "Explain photosynthesis"
        (ChatApiResponse.ok "" none (some ["x"])) =
      { stBase with isLoading := true } :=
  C10_guard_noop { stBase with isLoading := true } "Explain photosynthesis"
    (ChatApiResponse.ok "" none (some ["x"]))
    (Or.inr (Or.inl rfl))

end BhsAI

namespace BhsAI

/-!
## C7 — `getChatsForClass` ordering
-/

/-- A pinned conversation of class 6, created first. -/
def cPinned : StoredChat :=
  { id := "10", classNum := 6, title := "old", messages := [], createdAt := 1,
    isPinned := some true }

/-- An unpinned conversation of class 6, created later. -/
def cNewer : StoredChat :=
  { id := "20", classNum := 6, title := "new", messages := [], createdAt := 2 }

/-- Claim C7 counterexample: `getChatsForClass` does not place pinned
conversations first — a newer unpinned conversation precedes an older
pinned one. -/
theorem C7_counterexample :
    getChatsForClass [cPinned, cNewer] 6 = [cNewer, cPinned] ∧
    cPinned.isPinned = some true ∧ cNewer.isPinned = none := by
  decide

/-- Claim C7 (amended): `getChatsForClass` returns exactly the stored
conversations whose `classNum` equals the requested class, sorted by
creation time descending; pin status is not consulted. -/
theorem C7_amended (store : List StoredChat) (classNum : Int) :
    (getChatsForClass store classNum).Perm
        (store.filter (fun c => c.classNum = classNum)) ∧
    (getChatsForClass store classNum).Pairwise
        (fun a b => b.createdAt ≤ a.createdAt) := by
  constructor
  · exact List.perm_insertionSort _ _
  · haveI : IsTotal StoredChat (fun a b => b.createdAt ≤ a.createdAt) :=
      ⟨fun a b => Int.le_total b.createdAt a.createdAt⟩
    haveI : IsTrans StoredChat (fun a b => b.createdAt ≤ a.createdAt) :=
      ⟨fun a b c hab hbc => le_trans hbc hab⟩
    exact List.sorted_insertionSort _ _

/-!
## C3 — migration gating and idempotence
-/

/-- Claim C3: `migrateFromLocalStorage` writes records only when legacy
data is present and the durable store is empty; with a non-empty store it
performs zero writes and leaves the store unchanged; and a second run
performs zero writes and leaves the store unchanged unless the first run
changed nothing at all (a failed atomic write transaction), so running the
migration twice never duplicates records. -/
theorem C3_migration (now1 now2 : Int) (ok1 ok2 : Bool) (s : MigrationEnv) :
    ((migrateFromLocalStorage now1 ok1 s).2 > 0 →
        s.chatHistories ≠ none ∧ s.store = []) ∧
    (s.store ≠ [] →
        (migrateFromLocalStorage now1 ok1 s).2 = 0 ∧
        (migrateFromLocalStorage now1 ok1 s).1.store = s.store) ∧
    (((migrateFromLocalStorage now2 ok2 (migrateFromLocalStorage now1 ok1 s).1).2 = 0 ∧
        (migrateFromLocalStorage now2 ok2 (migrateFromLocalStorage now1 ok1 s).1).1.store =
          (migrateFromLocalStorage now1 ok1 s).1.store) ∨
      (migrateFromLocalStorage now1 ok1 s).1 = s) := by
  cases hch : s.chatHistories with
  | none =>
      refine ⟨?_, ?_, Or.inr ?_⟩ <;> simp [migrateFromLocalStorage, hch]
  | some parsed =>
      by_cases hstore : s.store.length > 0
      · have hs0 : (migrateFromLocalStorage now1 ok1 s).1.chatHistories = none := by
          simp [migrateFromLocalStorage, hch, hstore]
        refine ⟨?_, ?_, Or.inl ?_⟩
        · intro hw
          exfalso
          simp [migrateFromLocalStorage, hch, hstore] at hw
        · intro _
          simp [migrateFromLocalStorage, hch, hstore]
        · constructor <;> simp [migrateFromLocalStorage, hch, hstore, hs0]
      · have hempty : s.store = [] := by
          cases h : s.store with
          | nil => rfl
          | cons a t => rw [h] at hstore; simp at hstore
        cases ok1 with
        | false =>
            have hid : (migrateFromLocalStorage now1 false s).1 = s := by
              simp [migrateFromLocalStorage, hch, hstore]
            exact ⟨fun _ => ⟨by simp [hch], hempty⟩,
                   fun hcon => absurd hempty hcon, Or.inr hid⟩
        | true =>
            refine ⟨fun _ => ⟨by simp [hch], hempty⟩,
                    fun hcon => absurd hempty hcon, Or.inl ?_⟩
            constructor <;>
              simp [migrateFromLocalStorage, hch, hstore]

/-- Witness for `C3_migration`: a non-empty store forces zero writes. -/
theorem C3_migration_witness :
    (migrateFromLocalStorage 5 true
        { chatHistories := some [(6, [("1", LegacyChatData.plainMessages [])])],
          activeChatIds := true, store := [chatA] }).2 = 0 ∧
    (migrateFromLocalStorage 5 true
        { chatHistories := some [(6, [("1", LegacyChatData.plainMessages [])])],
          activeChatIds := true, store := [chatA] }).1.store = [chatA] :=
  (C3_migration 5 7 true true
      { chatHistories := some [(6, [("1", LegacyChatData.plainMessages [])])],
        activeChatIds := true, store := [chatA] }).2.1
    (by decide)

end BhsAI

namespace BhsAI

/-!
## C2 — routing of asynchronous updates to the originating conversation
-/

/-- The conversation (class 6) whose request is in flight: user message
followed by the pending empty placeholder. -/
def cOrigin : StoredChat :=
  { id := "100", classNum := 6, title := "",
    messages := [{ role := Role.user, text := "hi" },
                 { role := Role.model, text := "" }], createdAt := 100 }

/-- A conversation of class 7, loaded after the user switches class. -/
def cOtherClass : StoredChat :=
  { id := "200", classNum := 7, title := "", messages := [], createdAt := 200 }

/-- The session state after the user switches to class 7 while the request
issued from `cOrigin` is still in flight: the loaded chat list now holds
only class-7 conversations, while `cOrigin` sits in the durable store with
its empty placeholder. -/
def stSwitched : AppState :=
  { stBase with selectedClass := some 7, chatsForClass := [cOtherClass],
                activeChatId := some "200", db := [cOrigin, cOtherClass] }

/-- Claim C2 counterexample: if the user switches class before the final
update lands, the update addressed to the originating conversation id is
dropped entirely — no loaded conversation and no stored record receives
it, and the originating conversation keeps its empty placeholder — so the
update is not applied to the conversation that originated the request. -/
theorem C2_counterexample :
    applyUpdateLastMessage stSwitched (some "100")
        { role := Role.model, text := "Hello!" } true = stSwitched ∧
    stSwitched.db.find? (fun c => c.id = "100") = some cOrigin ∧
    cOrigin.messages.getLast? = some { role := Role.model, text := "" } := by
  decide

/-- Claim C2 (amended): every update is addressed to the conversation id
captured at request-issue time, independently of which conversation is
currently active: if a conversation with the captured id is still in the
loaded list (as after switching to a different conversation of the same
class), the update is applied to that conversation and only that one; if
the loaded list no longer contains the captured id (as after switching
class), the update is dropped without modifying any conversation and
without a persistence write. -/
theorem C2_amended (chats : List StoredChat) (capturedAid : String)
    (m : ChatMessage) (save : Bool) (haid : capturedAid ≠ "") :
    (chats.find? (fun c => c.id = capturedAid) = none →
        updateLastMessageApp (some capturedAid) chats m save = (chats, false)) ∧
    (∀ c, chats.find? (fun c2 => c2.id = capturedAid) = some c →
        updateLastMessageApp (some capturedAid) chats m save =
          (chats.map (fun c2 : StoredChat =>
              if c2.id = capturedAid
              then { c with messages := replaceLast c.messages m } else c2),
            save)) := by
  constructor
  · intro hnone
    simp [updateLastMessageApp, haid, hnone]
  · intro c hsome
    simp [updateLastMessageApp, haid, hsome]

/-- Witness for `C2_amended`: the user has navigated to another
conversation of the same class (`activeChatId` now `"2"`), yet the update
captured for `"1"` still lands on conversation `"1"`. -/
theorem C2_amended_witness :
    updateLastMessageApp (some "1")
        [{ chatA with messages := [{ role := Role.user, text := "q" },
                                   { role := Role.model, text := "" }] },
         { chatA with id := "2" }]
        { role := Role.model, text := "ans" } true =
      ([{ chatA with messages := [{ role := Role.user, text := "q" },
                                  { role := Role.model, text := "ans" }] },
        { chatA with id := "2" }], true) := by
  have h := (C2_amended
    [{ chatA with messages := [{ role := Role.user, text := "q" },
                               { role := Role.model, text := "" }] },
     { chatA with id := "2" }]
    "1" { role := Role.model, text := "ans" } true (by decide)).2
    { chatA with messages := [{ role := Role.user, text := "q" },
                              { role := Role.model, text := "" }] }
    (by decide)
  simpa using h

end BhsAI

namespace BhsAI

/-!
## C5 — deleting the active conversation
-/

/-- Claim C5: with a class selected, deleting the active conversation
leaves the active pointer on an existing conversation of that class: the
most recent remaining conversation when any remain (the list is kept
most-recent-first), otherwise a freshly created empty conversation.  The
pointer is never dangling. -/
theorem C5_delete_active (st : AppState) (did newId : String) (now : Int)
    (cls : Int) (hcls : st.selectedClass = some cls) (hcls0 : cls ≠ 0)
    (hact : st.activeChatId = some did)
    (hall : ∀ c ∈ st.chatsForClass, c.classNum = cls)
    (hsorted : st.chatsForClass.Pairwise (fun a b => b.createdAt ≤ a.createdAt)) :
    ∃ c, (handleDeleteChat st did newId now).activeChatId = some c.id ∧
      c ∈ (handleDeleteChat st did newId now).chatsForClass ∧
      c.classNum = cls ∧
      (st.chatsForClass.filter (fun c2 => c2.id ≠ did) ≠ [] →
          c ∈ st.chatsForClass.filter (fun c2 => c2.id ≠ did) ∧
          ∀ c2 ∈ st.chatsForClass.filter (fun c2 => c2.id ≠ did),
            c2.createdAt ≤ c.createdAt) ∧
      (st.chatsForClass.filter (fun c2 => c2.id ≠ did) = [] →
          c = { id := newId, classNum := cls, title := "", messages := [],
                createdAt := now }) := by
  have htrue : truthyClass st.selectedClass = true := by
    rw [hcls]; simp [truthyClass, hcls0]
  have hsortedFilter :=
    hsorted.filter (fun c2 : StoredChat => decide (c2.id ≠ did))
  unfold handleDeleteChat
  rw [htrue]
  simp only [Bool.true_eq_false, if_false, hact, if_pos rfl]
  cases hrem : st.chatsForClass.filter (fun c2 => c2.id ≠ did) with
  | nil =>
      refine ⟨{ id := newId, classNum := cls, title := "", messages := [],
                createdAt := now }, ?_, ?_, rfl, fun hcon => absurd rfl hcon,
              fun _ => rfl⟩
      · simp [handleNewChat, handleSelectChat, hcls, truthyClass, hcls0]
      · simp [handleNewChat, handleSelectChat, hcls, truthyClass, hcls0]
  | cons c rest =>
      rw [hrem] at hsortedFilter
      have hcmem : c ∈ st.chatsForClass.filter (fun c2 => c2.id ≠ did) := by
        rw [hrem]; exact List.mem_cons_self c rest
      refine ⟨c, ?_, ?_, hall c (List.mem_of_mem_filter hcmem),
              fun _ => ⟨List.mem_cons_self c rest, ?_⟩, ?_⟩
      · simp [handleSelectChat, htrue]
      · simp [handleSelectChat, htrue]
      · intro c2 hc2
        rcases List.mem_cons.mp hc2 with h | h
        · subst h; exact le_refl _
        · exact (List.pairwise_cons.mp hsortedFilter).1 c2 h
      · intro hcon; exact (List.cons_ne_nil c rest hcon).elim

/-- Witness for `C5_delete_active`: deleting the active (newer) of two
conversations selects the remaining one. -/
theorem C5_delete_active_witness :
    ∃ c, (handleDeleteChat
        { stBase with chatsForClass := [{ chatA with id := "2", createdAt := 2000 }, chatA],
                      activeChatId := some "2" } "2" "999" 5000).activeChatId = some c.id ∧
      c ∈ (handleDeleteChat
        { stBase with chatsForClass := [{ chatA with id := "2", createdAt := 2000 }, chatA],
                      activeChatId := some "2" } "2" "999" 5000).chatsForClass ∧
      c.classNum = 6 ∧
      ([{ chatA with id := "2", createdAt := 2000 }, chatA].filter
          (fun c2 => c2.id ≠ "2") ≠ [] →
          c ∈ [{ chatA with id := "2", createdAt := 2000 }, chatA].filter
            (fun c2 => c2.id ≠ "2") ∧
          ∀ c2 ∈ [{ chatA with id := "2", createdAt := 2000 }, chatA].filter
              (fun c2 => c2.id ≠ "2"), c2.createdAt ≤ c.createdAt) ∧
      ([{ chatA with id := "2", createdAt := 2000 }, chatA].filter
          (fun c2 => c2.id ≠ "2") = [] →
          c = { id := "999", classNum := 6, title := "", messages := [],
                createdAt := 5000 }) :=
  C5_delete_active
    { stBase with chatsForClass := [{ chatA with id := "2", createdAt := 2000 }, chatA],
                  activeChatId := some "2" }
    "2" "999" 5000 6 rfl (by decide) rfl (by decide) (by decide)

end BhsAI

namespace BhsAI

/-!
## Shape lemmas: message mutations touch only `chatsForClass` and `db`
-/

/-- Lemma: `applyUpdateLastMessage` changes at most the loaded chat list and the
durable store. -/
theorem applyUpdateLastMessage_shape (st : AppState) (aid : Option String)
    (m : ChatMessage) (save : Bool) :
    ∃ l d, applyUpdateLastMessage st aid m save =
      { st with chatsForClass := l, db := d } := by
  unfold applyUpdateLastMessage
  split
  · exact ⟨st.chatsForClass, st.db, rfl⟩
  · split
    · exact ⟨st.chatsForClass, st.db, rfl⟩
    · split
      · exact ⟨st.chatsForClass, st.db, rfl⟩
      · exact ⟨_, _, rfl⟩

/-- Lemma: `addNewMessage` changes at most the loaded chat list and the durable
store. -/
theorem addNewMessage_shape (st : AppState) (m : ChatMessage) :
    ∃ l d, addNewMessage st m = { st with chatsForClass := l, db := d } := by
  unfold addNewMessage
  split
  · exact ⟨st.chatsForClass, st.db, rfl⟩
  · split
    · exact ⟨st.chatsForClass, st.db, rfl⟩
    · split
      · exact ⟨st.chatsForClass, st.db, rfl⟩
      · exact ⟨_, _, rfl⟩

/-- The streaming loop changes at most the loaded chat list and the
durable store. -/
theorem applyStream_shape (aid : Option String) :
    ∀ (chunks : List String) (st : AppState) (acc : String),
    ∃ l d, (applyStream aid st acc chunks).1 =
      { st with chatsForClass := l, db := d } := by
  intro chunks
  induction chunks with
  | nil => intro st acc; exact ⟨st.chatsForClass, st.db, rfl⟩
  | cons c rest ih =>
      intro st acc
      obtain ⟨l1, d1, h1⟩ :=
        applyUpdateLastMessage_shape st aid { role := Role.model, text := acc ++ c } false
      obtain ⟨l2, d2, h2⟩ := ih
        (applyUpdateLastMessage st aid { role := Role.model, text := acc ++ c } false)
        (acc ++ c)
      refine ⟨l2, d2, ?_⟩
      rw [applyStream, h2, h1]

/-- On the active chat found in the loaded list, `addNewMessage` appends
the message to that chat. -/
theorem addNewMessage_found (st : AppState) (aid : String) (c : StoredChat)
    (m : ChatMessage) (haid : st.activeChatId = some aid) (haid0 : aid ≠ "")
    (hfind : st.chatsForClass.find? (fun c2 => c2.id = aid) = some c) :
    (addNewMessage st m).chatsForClass =
      st.chatsForClass.map (fun c2 : StoredChat =>
        if c2.id = aid then { c with messages := c.messages ++ [m] } else c2) := by
  unfold addNewMessage
  rw [haid]
  simp [haid0, hfind]

/-- Running `find?` after `addNewMessage` returns the active chat with the message
appended. -/
theorem addNewMessage_find? (st : AppState) (aid : String) (c : StoredChat)
    (m : ChatMessage) (haid : st.activeChatId = some aid) (haid0 : aid ≠ "")
    (hfind : st.chatsForClass.find? (fun c2 => c2.id = aid) = some c) :
    (addNewMessage st m).chatsForClass.find? (fun c2 => c2.id = aid) =
      some { c with messages := c.messages ++ [m] } := by
  have hcid : c.id = aid := by
    have hp := List.find?_some hfind
    simpa using hp
  rw [addNewMessage_found st aid c m haid haid0 hfind]
  exact find?_map_update st.chatsForClass aid _ hcid (by rw [hfind]; rfl)

end BhsAI

namespace BhsAI

/-!
## C4 — quiz scoring on the last answer
-/

/-- The score the claim prescribes: the number of indices `i` with
`answers[i] == questions[i].correctAnswerIndex`, phrased over the indexed
question list. -/
def claimedScore (qs : List QuizQuestion) (answers : List (Option Int)) : Nat :=
  qs.enum.countP (fun iq => answers.getD iq.1 none == some iq.2.correctAnswerIndex)

/-- Claim C4: answering the last question computes the score as the count
of indices whose recorded answer matches the correct index, bounded by the
number of questions; a results message is appended to the active
conversation and the stage transitions to results. -/
theorem C4_quiz_scoring (st : AppState) (a : Int) (aid : String) (c : StoredChat)
    (hlastq : st.currentQuestionIndex = st.quizQuestions.length - 1)
    (hNpos : st.quizQuestions ≠ [])
    (haid : st.activeChatId = some aid) (haid0 : aid ≠ "")
    (hfind : st.chatsForClass.find? (fun c2 => c2.id = aid) = some c) :
    (handleAnswerSelect st a).quizScore =
      claimedScore st.quizQuestions
        (st.userAnswers.set st.currentQuestionIndex (some a)) ∧
    (handleAnswerSelect st a).quizScore ≤ st.quizQuestions.length ∧
    (handleAnswerSelect st a).quizStage = QuizStage.results ∧
    (handleAnswerSelect st a).chatsForClass.find? (fun c2 => c2.id = aid) =
      some { c with messages := c.messages ++
        [{ role := Role.model,
           text := "## Quiz Complete!\n\n**Topic: " ++ st.quizTopicForDisplay ++
             "**\n**Final score: " ++
             toString (claimedScore st.quizQuestions
               (st.userAnswers.set st.currentQuestionIndex (some a))) ++
             " out of " ++ toString st.quizQuestions.length ++ "**" }] } := by
  have hlen1 : 1 ≤ st.quizQuestions.length := List.length_pos.mpr hNpos
  have hnot : ¬((st.currentQuestionIndex : Int) <
      (st.quizQuestions.length : Int) - 1) := by
    omega
  have hstep : handleAnswerSelect st a = addNewMessage
      { st with selectedAnswer := some a,
                userAnswers := st.userAnswers.set st.currentQuestionIndex (some a),
                quizScore := claimedScore st.quizQuestions
                  (st.userAnswers.set st.currentQuestionIndex (some a)),
                quizStage := QuizStage.results }
      { role := Role.model,
        text := "## Quiz Complete!\n\n**Topic: " ++ st.quizTopicForDisplay ++
          "**\n**Final score: " ++
          toString (claimedScore st.quizQuestions
            (st.userAnswers.set st.currentQuestionIndex (some a))) ++
          " out of " ++ toString st.quizQuestions.length ++ "**" } := by
    unfold handleAnswerSelect
    rw [if_neg hnot]
    rfl
  obtain ⟨l, d, hsh⟩ := addNewMessage_shape
    { st with selectedAnswer := some a,
              userAnswers := st.userAnswers.set st.currentQuestionIndex (some a),
              quizScore := claimedScore st.quizQuestions
                (st.userAnswers.set st.currentQuestionIndex (some a)),
              quizStage := QuizStage.results }
    { role := Role.model,
      text := "## Quiz Complete!\n\n**Topic: " ++ st.quizTopicForDisplay ++
        "**\n**Final score: " ++
        toString (claimedScore st.quizQuestions
          (st.userAnswers.set st.currentQuestionIndex (some a))) ++
        " out of " ++ toString st.quizQuestions.length ++ "**" }
  have hcid : c.id = aid := by
    have hp := List.find?_some hfind
    simpa using hp
  refine ⟨?_, ?_, ?_, ?_⟩
  · rw [hstep, hsh]
  · rw [hstep, hsh]
    show claimedScore st.quizQuestions
        (st.userAnswers.set st.currentQuestionIndex (some a)) ≤
      st.quizQuestions.length
    calc claimedScore st.quizQuestions
          (st.userAnswers.set st.currentQuestionIndex (some a)) ≤
        st.quizQuestions.enum.length := List.countP_le_length _
      _ = st.quizQuestions.length := List.enum_length
  · rw [hstep, hsh]
  · rw [hstep]
    exact addNewMessage_find? _ aid c _ haid haid0 hfind

/-- Witness for `C4_quiz_scoring`: a 5-question quiz where every answer is
index 0 and 3 of the correct indices are 0 — final score 3. -/
theorem C4_quiz_scoring_witness :
    (handleAnswerSelect
      { stBase with
          quizTopicForDisplay := "Newton",
          quizQuestions :=
            [{ question := "q1", options := ["a","b","c","d"],
               correctAnswerIndex := 0, explanation := "e1" },
             { question := "q2", options := ["a","b","c","d"],
               correctAnswerIndex := 1, explanation := "e2" },
             { question := "q3", options := ["a","b","c","d"],
               correctAnswerIndex := 0, explanation := "e3" },
             { question := "q4", options := ["a","b","c","d"],
               correctAnswerIndex := 2, explanation := "e4" },
             { question := "q5", options := ["a","b","c","d"],
               correctAnswerIndex := 0, explanation := "e5" }],
          currentQuestionIndex := 4,
          userAnswers := [some 0, some 0, some 0, some 0, none] } 0).quizScore = 3 ∧
    (handleAnswerSelect
      { stBase with
          quizTopicForDisplay := "Newton",
          quizQuestions :=
            [{ question := "q1", options := ["a","b","c","d"],
               correctAnswerIndex := 0, explanation := "e1" },
             { question := "q2", options := ["a","b","c","d"],
               correctAnswerIndex := 1, explanation := "e2" },
             { question := "q3", options := ["a","b","c","d"],
               correctAnswerIndex := 0, explanation := "e3" },
             { question := "q4", options := ["a","b","c","d"],
               correctAnswerIndex := 2, explanation := "e4" },
             { question := "q5", options := ["a","b","c","d"],
               correctAnswerIndex := 0, explanation := "e5" }],
          currentQuestionIndex := 4,
          userAnswers := [some 0, some 0, some 0, some 0, none] } 0).quizStage =
      QuizStage.results := by
  have h := C4_quiz_scoring
    { stBase with
        quizTopicForDisplay := "Newton",
        quizQuestions :=
          [{ question := "q1", options := ["a","b","c","d"],
             correctAnswerIndex := 0, explanation := "e1" },
           { question := "q2", options := ["a","b","c","d"],
             correctAnswerIndex := 1, explanation := "e2" },
           { question := "q3", options := ["a","b","c","d"],
             correctAnswerIndex := 0, explanation := "e3" },
           { question := "q4", options := ["a","b","c","d"],
             correctAnswerIndex := 2, explanation := "e4" },
           { question := "q5", options := ["a","b","c","d"],
             correctAnswerIndex := 0, explanation := "e5" }],
        currentQuestionIndex := 4,
        userAnswers := [some 0, some 0, some 0, some 0, none] }
    0 "1" chatA rfl (by decide) rfl (by decide) (by decide)
  refine ⟨?_, h.2.2.1⟩
  rw [h.1]
  decide

end BhsAI

namespace BhsAI

/-- Lemma: `applyChatResponse` changes at most the loaded chat list and the
durable store. -/
theorem applyChatResponse_shape (st2 : AppState) (aid : String) (gs : Bool)
    (resp : ChatApiResponse) :
    ∃ l d, applyChatResponse st2 aid gs resp =
      { st2 with chatsForClass := l, db := d } := by
  unfold applyChatResponse
  split
  · exact applyUpdateLastMessage_shape st2 (some aid) _ true
  · split
    · exact applyUpdateLastMessage_shape st2 (some aid) _ true
    · split
      · exact applyUpdateLastMessage_shape st2 (some aid) _ true
      · next chunks =>
          obtain ⟨l1, d1, h1⟩ := applyStream_shape (some aid) chunks st2 ""
          obtain ⟨l2, d2, h2⟩ := applyUpdateLastMessage_shape
            (applyStream (some aid) st2 "" chunks).1 (some aid)
            { role := Role.model, text := (applyStream (some aid) st2 "" chunks).2 }
            true
          refine ⟨l2, d2, ?_⟩
          show applyUpdateLastMessage (applyStream (some aid) st2 "" chunks).1
              (some aid)
              { role := Role.model, text := (applyStream (some aid) st2 "" chunks).2 }
              true = _
          rw [h2, h1]

/-!
## C6 — title generation trigger
-/

/-- Claim C6 (code bug): the title trigger in `handleSendMessage` re-reads
the conversation from the render-time `chatsForClass` closure, whose copy
of the conversation still has its pre-send message count, so the
`length === 2` check never passes: `generateTitleForChat` is never invoked
— title generation never happens at all, contradicting the intended
trigger after the first exchange.  Concretely: sending the first message
of a fresh conversation leaves it with exactly two messages and an empty
title, yet no title generation is requested. -/
theorem C6_title_generation_never_triggered :
    (∀ (st : AppState) (messageText : String) (resp : ChatApiResponse),
        (handleSendMessage st messageText resp).titleRequestedFor =
          st.titleRequestedFor) ∧
    ((handleSendMessage stBase "hi"
        (ChatApiResponse.ok "" none (some ["Hello!"]))).chatsForClass.find?
          (fun c => c.id = "1")).map (fun c => (c.messages.length, c.title)) =
      some (2, "") ∧
    (handleSendMessage stBase "hi"
        (ChatApiResponse.ok "" none (some ["Hello!"]))).titleRequestedFor = none := by
  refine ⟨?_, by decide, by decide⟩
  intro st messageText resp
  unfold handleSendMessage
  split
  · rfl
  · split
    · rfl
    · split
      · rfl
      · next currentChat hfind =>
          simp only [hfind]
          have hfalse : ((currentChat.messages.length == 0) &&
              truthyClass st.selectedClass &&
              (currentChat.messages.length == 2)) = false := by
            cases hm : currentChat.messages.length with
            | zero => simp
            | succ k => simp
          rw [hfalse]
          simp only [Bool.false_eq_true, if_false]
          obtain ⟨l, d, hsh⟩ := applyChatResponse_shape _ _ _ resp
          rw [hsh]

end BhsAI

namespace BhsAI

/-- Full-state equation for `applyUpdateLastMessage` when the targeted chat
is found. -/
theorem applyUpdateLastMessage_found (st : AppState) (aid : String)
    (c : StoredChat) (m : ChatMessage) (save : Bool) (haid0 : aid ≠ "")
    (hfind : st.chatsForClass.find? (fun c2 => c2.id = aid) = some c) :
    applyUpdateLastMessage st (some aid) m save =
      { st with
          chatsForClass := st.chatsForClass.map (fun c2 : StoredChat =>
            if c2.id = aid then { c with messages := replaceLast c.messages m }
            else c2),
          db := if save then dbPut st.db { c with messages := replaceLast c.messages m }
                else st.db } := by
  unfold applyUpdateLastMessage
  simp [haid0, hfind]

/-- Full-state equation for `addNewMessage` when the active chat is found. -/
theorem addNewMessage_eq_found (st : AppState) (aid : String) (c : StoredChat)
    (m : ChatMessage) (haid : st.activeChatId = some aid) (haid0 : aid ≠ "")
    (hfind : st.chatsForClass.find? (fun c2 => c2.id = aid) = some c) :
    addNewMessage st m =
      { st with
          chatsForClass := st.chatsForClass.map (fun c2 : StoredChat =>
            if c2.id = aid then { c with messages := c.messages ++ [m] }
            else c2),
          db := dbPut st.db { c with messages := c.messages ++ [m] } } := by
  unfold addNewMessage
  rw [haid]
  simp [haid0, hfind]

/-- Overwriting the last slot of a list ending in two known messages. -/
theorem replaceLast_append_pair (l : List ChatMessage) (a b m : ChatMessage) :
    replaceLast (l ++ [a, b]) m = l ++ [a, m] := by
  rw [show l ++ [a, b] = (l ++ [a]) ++ [b] by simp]
  rw [replaceLast_eq_dropLast_concat _ _ (by simp)]
  rw [List.dropLast_concat]
  simp

end BhsAI


namespace BhsAI

theorem applyUpdateLastMessage_then_find (stX : AppState) (aid : String)
    (u : StoredChat) (m : ChatMessage) (save : Bool) (haid0 : aid ≠ "")
    (hf : stX.chatsForClass.find? (fun c2 => c2.id = aid) = some u) :
    (applyUpdateLastMessage stX (some aid) m save).chatsForClass.find?
        (fun c2 => c2.id = aid) =
      some { u with messages := replaceLast u.messages m } := by
  have hcid : u.id = aid := by simpa using List.find?_some hf
  rw [applyUpdateLastMessage_found stX aid u m save haid0 hf]
  exact find?_map_update stX.chatsForClass aid _ hcid (by rw [hf]; rfl)

theorem handleSendMessage_httpError_find (st : AppState) (messageText e aid : String)
    (c : StoredChat)
    (haid : st.activeChatId = some aid) (haid0 : aid ≠ "")
    (htrim : jsTrim messageText ≠ "") (hload : st.isLoading = false)
    (hcls : truthyClass st.selectedClass = true)
    (hfind : st.chatsForClass.find? (fun c2 => c2.id = aid) = some c) :
    (handleSendMessage st messageText
        (ChatApiResponse.httpError e)).chatsForClass.find?
        (fun c2 => c2.id = aid) =
      some { c with messages := c.messages ++
        [{ role := Role.user, text := messageText, image := st.image },
         { role := Role.model, text := "Sorry, something went wrong. " ++ e }] } := by
  have hcid : c.id = aid := by simpa using List.find?_some hfind
  unfold handleSendMessage
  split
  · next heq => rw [haid] at heq; cases heq
  · next aid2 heq =>
      rw [haid] at heq
      injection heq with h2
      subst h2
      split
      · next hguard =>
          exfalso
          rcases hguard with ⟨h1, _⟩ | h | h | h
          · exact htrim h1
          · rw [hload] at h; exact Bool.false_ne_true h
          · rw [hcls] at h; exact absurd h (by simp)
          · exact haid0 h
      · split
        · next hfnone => rw [hfind] at hfnone; cases hfnone
        · next currentChat hfsome =>
            rw [hfind] at hfsome
            injection hfsome with hce
            subst hce
            simp only [hfind]
            have hfalse : ((c.messages.length == 0) &&
                truthyClass st.selectedClass &&
                (c.messages.length == 2)) = false := by
              cases c.messages.length <;> simp
            rw [hfalse]
            simp only [Bool.false_eq_true, if_false]
            have hplaceholder :
                (⟨c.id, c.classNum, c.title,
                  c.messages ++
                    [{ role := Role.user, text := messageText, image := st.image },
                     { role := Role.model, text := "" }],
                  c.createdAt, c.isPinned⟩ : StoredChat).id = aid := hcid
            have h0 := applyUpdateLastMessage_then_find
              ⟨st.selectedClass,
               st.chatsForClass.map (fun c2 : StoredChat =>
                 if c2.id = aid then
                   ⟨c.id, c.classNum, c.title,
                    c.messages ++
                      [{ role := Role.user, text := messageText, image := st.image },
                       { role := Role.model, text := "" }],
                    c.createdAt, c.isPinned⟩
                 else c2),
               st.activeChatId, "", none, true, st.isGoogleSearchEnabled,
               dbPut st.db
                 ⟨c.id, c.classNum, c.title,
                  c.messages ++
                    [{ role := Role.user, text := messageText, image := st.image },
                     { role := Role.model, text := "" }],
                  c.createdAt, c.isPinned⟩,
               st.requestsSent + 1, st.titleRequestedFor, st.showQuizModal,
               st.quizTopic, st.quizTopicForDisplay, st.quizQuestions,
               st.currentQuestionIndex, st.userAnswers, st.selectedAnswer,
               st.isQuizModeActive, st.quizStage, st.quizScore⟩
              aid
              ⟨c.id, c.classNum, c.title,
               c.messages ++
                 [{ role := Role.user, text := messageText, image := st.image },
                  { role := Role.model, text := "" }],
               c.createdAt, c.isPinned⟩
              { role := Role.model, text := "Sorry, something went wrong. " ++ e }
              true haid0
              (find?_map_update st.chatsForClass aid _ hplaceholder
                (by rw [hfind]; rfl))
            simpa [replaceLast_append_pair] using h0


theorem replaceLast_concat_concat (l : List ChatMessage) (a b m : ChatMessage) :
    replaceLast ((l ++ [a]) ++ [b]) m = l ++ [a, m] := by
  rw [replaceLast_eq_dropLast_concat _ _ (by simp), List.dropLast_concat]
  simp

theorem handleStartQuiz_failure (st : AppState) (aid : String) (c : StoredChat)
    (errText : String) (resp : QuizApiResponse)
    (haid : st.activeChatId = some aid) (haid0 : aid ≠ "")
    (htopic : jsTrim st.quizTopic ≠ "")
    (hcls : truthyClass st.selectedClass = true)
    (hfind : st.chatsForClass.find? (fun c2 => c2.id = aid) = some c)
    (hresp : (∃ e, resp = QuizApiResponse.httpError e ∧
        errText = "Sorry, I couldn\x27t create a quiz for that topic. " ++ e) ∨
      ((resp = QuizApiResponse.ok none ∨ resp = QuizApiResponse.ok (some [])) ∧
        errText = "Sorry, I couldn\x27t create a quiz for that topic. The AI could not generate a quiz for this topic.")) :
    (handleStartQuiz st resp).chatsForClass.find? (fun c2 => c2.id = aid) =
      some { c with messages := c.messages ++
        [{ role := Role.user, text := "Start a quiz on: " ++ st.quizTopic },
         { role := Role.model, text := errText }] } ∧
    (handleStartQuiz st resp).isQuizModeActive = st.isQuizModeActive ∧
    (handleStartQuiz st resp).quizQuestions = st.quizQuestions ∧
    (handleStartQuiz st resp).quizStage = st.quizStage := by
  have hcid : c.id = aid := by simpa using List.find?_some hfind
  have hguard : ¬(jsTrim st.quizTopic = "" ∨ truthyClass st.selectedClass = false) := by
    rintro (h | h)
    · exact htopic h
    · rw [hcls] at h; exact absurd h (by simp)
  have hstep : handleStartQuiz st resp =
      { applyUpdateLastMessage
          { (addNewMessage
              (addNewMessage
                { st with quizTopicForDisplay := st.quizTopic, isLoading := true,
                          showQuizModal := false }
                { role := Role.user, text := "Start a quiz on: " ++ st.quizTopic })
              { role := Role.model, text := "" }) with
            requestsSent :=
              (addNewMessage
                (addNewMessage
                  { st with quizTopicForDisplay := st.quizTopic, isLoading := true,
                            showQuizModal := false }
                  { role := Role.user, text := "Start a quiz on: " ++ st.quizTopic })
                { role := Role.model, text := "" }).requestsSent + 1 }
          st.activeChatId { role := Role.model, text := errText } true with
        quizTopic := "", isLoading := false } := by
    rcases hresp with ⟨e, hr, he⟩ | ⟨hr | hr, he⟩ <;> subst hr <;> subst he <;>
      (unfold handleStartQuiz; rw [if_neg hguard]) <;> rfl
  rw [haid] at hstep
  have h1 := addNewMessage_eq_found
    { st with activeChatId := some aid, quizTopicForDisplay := st.quizTopic, isLoading := true, showQuizModal := false }
    aid c { role := Role.user, text := "Start a quiz on: " ++ st.quizTopic }
    rfl haid0 hfind
  rw [h1] at hstep
  dsimp only at hstep
  have hf1 : (List.map (fun c2 : StoredChat => if c2.id = aid then { c with messages := c.messages ++ [{ role := Role.user, text := "Start a quiz on: " ++ st.quizTopic }] } else c2) st.chatsForClass).find? (fun c2 => c2.id = aid) = some { c with messages := c.messages ++ [{ role := Role.user, text := "Start a quiz on: " ++ st.quizTopic }] } :=
    find?_map_update st.chatsForClass aid _ hcid (by rw [hfind]; rfl)
  have h2 := addNewMessage_eq_found
    { st with activeChatId := some aid, quizTopicForDisplay := st.quizTopic, isLoading := true, showQuizModal := false, chatsForClass := List.map (fun c2 : StoredChat => if c2.id = aid then { c with messages := c.messages ++ [{ role := Role.user, text := "Start a quiz on: " ++ st.quizTopic }] } else c2) st.chatsForClass, db := dbPut st.db { c with messages := c.messages ++ [{ role := Role.user, text := "Start a quiz on: " ++ st.quizTopic }] } }
    aid { c with messages := c.messages ++ [{ role := Role.user, text := "Start a quiz on: " ++ st.quizTopic }] } { role := Role.model, text := "" }
    rfl haid0 hf1
  rw [h2] at hstep
  dsimp only at hstep
  have hf2 : (List.map (fun c2 : StoredChat => if c2.id = aid then { c with messages := c.messages ++ [{ role := Role.user, text := "Start a quiz on: " ++ st.quizTopic }] ++ [{ role := Role.model, text := "" }] } else c2) (List.map (fun c2 : StoredChat => if c2.id = aid then { c with messages := c.messages ++ [{ role := Role.user, text := "Start a quiz on: " ++ st.quizTopic }] } else c2) st.chatsForClass)).find? (fun c2 => c2.id = aid) = some { c with messages := c.messages ++ [{ role := Role.user, text := "Start a quiz on: " ++ st.quizTopic }] ++ [{ role := Role.model, text := "" }] } :=
    find?_map_update (List.map (fun c2 : StoredChat => if c2.id = aid then { c with messages := c.messages ++ [{ role := Role.user, text := "Start a quiz on: " ++ st.quizTopic }] } else c2) st.chatsForClass) aid _ hcid (by rw [hf1]; rfl)
  have h3 := applyUpdateLastMessage_found
    { st with activeChatId := some aid, quizTopicForDisplay := st.quizTopic, isLoading := true, showQuizModal := false, chatsForClass := List.map (fun c2 : StoredChat => if c2.id = aid then { c with messages := c.messages ++ [{ role := Role.user, text := "Start a quiz on: " ++ st.quizTopic }] ++ [{ role := Role.model, text := "" }] } else c2) (List.map (fun c2 : StoredChat => if c2.id = aid then { c with messages := c.messages ++ [{ role := Role.user, text := "Start a quiz on: " ++ st.quizTopic }] } else c2) st.chatsForClass), db := dbPut (dbPut st.db { c with messages := c.messages ++ [{ role := Role.user, text := "Start a quiz on: " ++ st.quizTopic }] }) { c with messages := c.messages ++ [{ role := Role.user, text := "Start a quiz on: " ++ st.quizTopic }] ++ [{ role := Role.model, text := "" }] }, requestsSent := st.requestsSent + 1 }
    aid { c with messages := c.messages ++ [{ role := Role.user, text := "Start a quiz on: " ++ st.quizTopic }] ++ [{ role := Role.model, text := "" }] } { role := Role.model, text := errText } true haid0 hf2
  rw [h3] at hstep
  dsimp only at hstep
  rw [hstep]
  refine ⟨?_, rfl, rfl, rfl⟩
  rw [replaceLast_concat_concat]
  exact find?_map_update (List.map (fun c2 : StoredChat => if c2.id = aid then { c with messages := c.messages ++ [{ role := Role.user, text := "Start a quiz on: " ++ st.quizTopic }] ++ [{ role := Role.model, text := "" }] } else c2) (List.map (fun c2 : StoredChat => if c2.id = aid then { c with messages := c.messages ++ [{ role := Role.user, text := "Start a quiz on: " ++ st.quizTopic }] } else c2) st.chatsForClass)) aid
    { c with messages := c.messages ++ [{ role := Role.user, text := "Start a quiz on: " ++ st.quizTopic }, { role := Role.model, text := errText }] } hcid (by rw [hf2]; rfl)
end BhsAI

namespace BhsAI

/-- A string with a non-empty prefix is non-empty. -/
theorem string_append_ne_empty (p e : String) (hp : p ≠ "") : p ++ e ≠ "" := by
  intro hcon
  apply hp
  have hdata : (p ++ e).data = ("" : String).data := congrArg String.data hcon
  rw [String.data_append] at hdata
  have hp0 : p.data = [] := (List.append_eq_nil.mp hdata).1
  cases p with
  | mk pd =>
      cases hp0
      rfl

/-!
## C8 — failure handling replaces the placeholder, quiz engine stays idle
-/

/-- Claim C8: whenever a chat or quiz request fails — thrown/transport
error, non-success HTTP status, missing `quiz` field, or an empty question
list — the pending empty placeholder model message is replaced by an error
message whose text embeds the failure reason and is never empty, and in
the quiz case no quiz state is created: `isQuizModeActive`,
`quizQuestions` and `quizStage` are left exactly as they were (the engine
stays idle). -/
theorem C8_failure_replaces_placeholder (st : AppState)
    (messageText aid : String) (c : StoredChat)
    (haid : st.activeChatId = some aid) (haid0 : aid ≠ "")
    (htrim : jsTrim messageText ≠ "") (hload : st.isLoading = false)
    (hcls : truthyClass st.selectedClass = true)
    (htopic : jsTrim st.quizTopic ≠ "")
    (hfind : st.chatsForClass.find? (fun c2 => c2.id = aid) = some c) :
    (∀ e : String,
      (handleSendMessage st messageText
          (ChatApiResponse.httpError e)).chatsForClass.find?
          (fun c2 => c2.id = aid) =
        some { c with messages := c.messages ++
          [{ role := Role.user, text := messageText, image := st.image },
           { role := Role.model, text := "Sorry, something went wrong. " ++ e }] } ∧
      ("Sorry, something went wrong. " ++ e : String) ≠ "") ∧
    (∀ e : String,
      (handleStartQuiz st (QuizApiResponse.httpError e)).chatsForClass.find?
          (fun c2 => c2.id = aid) =
        some { c with messages := c.messages ++
          [{ role := Role.user, text := "Start a quiz on: " ++ st.quizTopic },
           { role := Role.model,
             text := "Sorry, I couldn\x27t create a quiz for that topic. " ++ e }] } ∧
      (handleStartQuiz st (QuizApiResponse.httpError e)).isQuizModeActive =
        st.isQuizModeActive ∧
      (handleStartQuiz st (QuizApiResponse.httpError e)).quizQuestions =
        st.quizQuestions ∧
      (handleStartQuiz st (QuizApiResponse.httpError e)).quizStage = st.quizStage ∧
      ("Sorry, I couldn\x27t create a quiz for that topic. " ++ e : String) ≠ "") ∧
    (∀ resp ∈ [QuizApiResponse.ok none, QuizApiResponse.ok (some [])],
      (handleStartQuiz st resp).chatsForClass.find? (fun c2 => c2.id = aid) =
        some { c with messages := c.messages ++
          [{ role := Role.user, text := "Start a quiz on: " ++ st.quizTopic },
           { role := Role.model,
             text := "Sorry, I couldn\x27t create a quiz for that topic. The AI could not generate a quiz for this topic." }] } ∧
      (handleStartQuiz st resp).isQuizModeActive = st.isQuizModeActive ∧
      (handleStartQuiz st resp).quizQuestions = st.quizQuestions ∧
      (handleStartQuiz st resp).quizStage = st.quizStage ∧
      ("Sorry, I couldn\x27t create a quiz for that topic. The AI could not generate a quiz for this topic." : String) ≠ "") := by
  refine ⟨?_, ?_, ?_⟩
  · intro e
    refine ⟨handleSendMessage_httpError_find st messageText e aid c haid haid0
      htrim hload hcls hfind, ?_⟩
    exact string_append_ne_empty _ _ (by decide)
  · intro e
    have h := handleStartQuiz_failure st aid c
      ("Sorry, I couldn\x27t create a quiz for that topic. " ++ e)
      (QuizApiResponse.httpError e) haid haid0 htopic hcls hfind
      (Or.inl ⟨e, rfl, rfl⟩)
    exact ⟨h.1, h.2.1, h.2.2.1, h.2.2.2,
      string_append_ne_empty _ _ (by decide)⟩
  · intro resp hresp
    have hcase : resp = QuizApiResponse.ok none ∨ resp = QuizApiResponse.ok (some []) := by
      simpa using hresp
    have h := handleStartQuiz_failure st aid c
      "Sorry, I couldn\x27t create a quiz for that topic. The AI could not generate a quiz for this topic."
      resp haid haid0 htopic hcls hfind (Or.inr ⟨hcase, rfl⟩)
    exact ⟨h.1, h.2.1, h.2.2.1, h.2.2.2, by decide⟩

/-- Witness for `C8_failure_replaces_placeholder`: a concrete session with
one conversation, a non-blank message and quiz topic, and a quiz response
with zero questions. -/
theorem C8_failure_replaces_placeholder_witness :
    (handleStartQuiz { stBase with quizTopic := "Newton" }
        (QuizApiResponse.ok (some []))).isQuizModeActive = false ∧
    (handleSendMessage { stBase with quizTopic := "Newton" } "hi"
        (ChatApiResponse.httpError "boom")).chatsForClass.find?
        (fun c2 => c2.id = "1") =
      some { chatA with messages :=
        [{ role := Role.user, text := "hi" },
         { role := Role.model, text := "Sorry, something went wrong. boom" }] } := by
  have h := C8_failure_replaces_placeholder { stBase with quizTopic := "Newton" }
    "hi" "1" chatA rfl (by decide) (by decide) rfl (by decide) (by decide) rfl
  refine ⟨?_, ?_⟩
  · exact ((h.2.2 (QuizApiResponse.ok (some [])) (by simp)).2.1).trans rfl
  · have h1 := (h.1 "boom").1
    simpa using h1

end BhsAI
